import Mathlib

/-!
Verification of the energy-consumption front-end.

The development shallowly embeds the three source files of the repository:

* `src/app/api/dataset/route.ts` — the two proxy handlers (`GET` for the
  dataset listing, `POST` for predictions);
* `src/app/page.tsx` — the predictor view (`Home`), in particular the
  rendering of the monthly consumption figure;
* the dataset view (`DatasetPage` with its inner `LineGraph` component) —
  pagination state, building-type filtering and the hand-rolled SVG chart
  geometry.

JavaScript values that validation inspects are modelled by `JsVal`
(capturing `undefined`, `null`, strings, numbers, booleans, and JS
truthiness); numbers elsewhere are modelled by `ℚ`.
-/

/-- A JavaScript value as far as the proxy's validation distinguishes them:
`undefined` (also the result of destructuring an absent JSON field), `null`,
strings, numbers and booleans. -/
inductive JsVal where
  | undef
  | null
  | str (s : String)
  | num (q : ℚ)
  | bool (b : Bool)
deriving DecidableEq, Repr

/-- JavaScript falsiness: `undefined`, `null`, `""`, `0` and `false` are
falsy; everything else modelled here is truthy. -/
def JsVal.falsy : JsVal → Bool
  | .undef => true
  | .null => true
  | .str s => s = ""
  | .num q => q = 0
  | .bool b => !b

/-- The JSON body of a `POST /api/predict` request, after destructuring the
four named fields (an absent field destructures to `undefined`); `extra`
holds any additional fields the client sent. -/
structure PredictBody where
  building_type : JsVal
  square_footage : JsVal
  number_of_occupants : JsVal
  appliances_used : JsVal
  extra : List (String × JsVal)
deriving DecidableEq, Repr

/-- What the `POST` handler does with a body: reject it locally with an HTTP
status and error message (no backend call is made), or forward a JSON body
(as an association list of fields) to the backend `POST /predict`. -/
inductive PostAction where
  | reject (status : Nat) (error : String)
  | forward (body : List (String × JsVal))
deriving DecidableEq, Repr

/-- The body the handler builds for the backend:
`JSON.stringify({building_type, square_footage, number_of_occupants,
appliances_used})`.  `JSON.stringify` omits keys whose value is
`undefined`, hence the filter. -/
def forwardedBody (b : PredictBody) : List (String × JsVal) :=
  [("building_type", b.building_type),
   ("square_footage", b.square_footage),
   ("number_of_occupants", b.number_of_occupants),
   ("appliances_used", b.appliances_used)].filter (fun kv => kv.2 != JsVal.undef)

/-- The validation-and-forward logic of the `POST` handler in
`src/app/api/dataset/route.ts`: reject with 400 "Missing required fields"
when `!building_type` or any numeric field is `=== undefined`; otherwise
forward exactly the four destructured fields. -/
def predictPOST (b : PredictBody) : PostAction :=
  if b.building_type.falsy
      || b.square_footage == JsVal.undef
      || b.number_of_occupants == JsVal.undef
      || b.appliances_used == JsVal.undef then
    .reject 400 "Missing required fields"
  else
    .forward (forwardedBody b)

/-- JS `x || d` on an optional string, as used for query parameters:
`searchParams.get` returns `null` (here `none`) when the parameter is
absent, and the empty string is falsy. -/
def jsOrString (v : Option String) (d : String) : String :=
  match v with
  | none => d
  | some s => if s = "" then d else s

/-- The `page` and `limit` strings the `GET` handler forwards to the backend
dataset endpoint, from the raw query parameters:
`searchParams.get('page') || '1'` and `searchParams.get('limit') || '50'`. -/
def datasetGETparams (page limit : Option String) : String × String :=
  (jsOrString page "1", jsOrString limit "50")

/-- Whether a string is a valid (optionally sign-prefixed) integer string —
the spec's notion of a well-formed `page`/`limit` value. -/
def isIntegerString (s : String) : Bool :=
  let cs := if s.data.head? = some '-' then s.data.tail else s.data
  cs ≠ [] && cs.all Char.isDigit

/-- The optional `factors` object of a backend prediction response
(`?.`/`??` treat `null` and `undefined` alike, so `Option` models both). -/
structure BackendFactors where
  building_type : Option ℚ
  square_footage : Option ℚ
  number_of_occupants : Option ℚ
  appliances_used : Option ℚ
deriving DecidableEq, Repr

/-- A successful (2xx) backend prediction response as the handler types it:
every field may be missing. -/
structure BackendPredictionResponse where
  energy_consumption : Option ℚ
  unit : Option String
  factors : Option BackendFactors
deriving DecidableEq, Repr

/-- The fully-populated factors object of the normalized response. -/
structure NormalizedFactors where
  building_type : ℚ
  square_footage : ℚ
  number_of_occupants : ℚ
  appliances_used : ℚ
deriving DecidableEq, Repr

/-- The normalized response the proxy returns on success. -/
structure NormalizedResponse where
  energy_consumption : ℚ
  unit : String
  factors : NormalizedFactors
deriving DecidableEq, Repr

/-- The success-path normalization of the `POST` handler:
`data.energy_consumption ?? 0`, `data.unit ?? 'kWh'`, and
`data.factors?.field ?? 0` for each of the four factor fields. -/
def normalizeResponse (d : BackendPredictionResponse) : NormalizedResponse :=
  { energy_consumption := d.energy_consumption.getD 0
    unit := d.unit.getD "kWh"
    factors :=
      { building_type := (d.factors.bind BackendFactors.building_type).getD 0
        square_footage := (d.factors.bind BackendFactors.square_footage).getD 0
        number_of_occupants := (d.factors.bind BackendFactors.number_of_occupants).getD 0
        appliances_used := (d.factors.bind BackendFactors.appliances_used).getD 0 } }

/-- C2: a request body in which any one of the four required fields is
absent (destructures to `undefined`) is rejected with status 400 and error
message "Missing required fields", whichever field it is, and nothing is
forwarded to the backend. -/
theorem C2_missing_field_rejected (b : PredictBody)
    (h : b.building_type = .undef ∨ b.square_footage = .undef
        ∨ b.number_of_occupants = .undef ∨ b.appliances_used = .undef) :
    predictPOST b = .reject 400 "Missing required fields" := by
  rcases h with h | h | h | h <;> simp [predictPOST, h, JsVal.falsy]

theorem C2_missing_field_rejected_witness :
    predictPOST
      { building_type := .str "Residential", square_footage := .undef,
        number_of_occupants := .num 4, appliances_used := .num 20, extra := [] }
      = .reject 400 "Missing required fields" :=
  C2_missing_field_rejected _ (Or.inr (Or.inl rfl))

/-- C9: a body where `square_footage` is present but `null` passes the
validation (only `building_type` is falsy-checked; the numeric fields are
compared against `undefined` only), and the `null` is forwarded to the
backend instead of a 400 response. -/
theorem C9_null_numeric_field_forwarded :
    predictPOST
      { building_type := .str "Residential", square_footage := .null,
        number_of_occupants := .num 4, appliances_used := .num 20, extra := [] }
      = .forward
          [("building_type", .str "Residential"), ("square_footage", .null),
           ("number_of_occupants", .num 4), ("appliances_used", .num 20)] := by
  decide

/-- C6: whenever validation passes and the handler forwards a body to the
backend, that body consists of exactly the four required fields, in order,
with the values taken from the incoming body — any `extra` fields of the
incoming body are not forwarded. -/
theorem C6_forwards_exactly_four_fields (b : PredictBody)
    (l : List (String × JsVal)) (h : predictPOST b = .forward l) :
    l = [("building_type", b.building_type),
         ("square_footage", b.square_footage),
         ("number_of_occupants", b.number_of_occupants),
         ("appliances_used", b.appliances_used)]
      ∧ l.map Prod.fst
          = ["building_type", "square_footage", "number_of_occupants",
             "appliances_used"] := by
  unfold predictPOST at h
  split at h
  · exact absurd h (by simp)
  · rename_i hvalid
    simp only [Bool.or_eq_true, beq_iff_eq, not_or] at hvalid
    obtain ⟨⟨⟨hbt, hsf⟩, hno⟩, hau⟩ := hvalid
    have hb : b.building_type ≠ JsVal.undef := fun hc => hbt (by simp [hc, JsVal.falsy])
    have hl : l = forwardedBody b := by
      simpa using h.symm
    have hfb : forwardedBody b
        = [("building_type", b.building_type),
           ("square_footage", b.square_footage),
           ("number_of_occupants", b.number_of_occupants),
           ("appliances_used", b.appliances_used)] := by
      simp [forwardedBody, List.filter_cons, hb, hsf, hno, hau]
    rw [hl, hfb]
    exact ⟨rfl, rfl⟩

theorem C6_forwards_exactly_four_fields_witness :
    (predictPOST
        { building_type := .str "Commercial", square_footage := .num 300,
          number_of_occupants := .num 2, appliances_used := .num 7,
          extra := [("debug", .bool true), ("note", .str "hi")] }
      = .forward
          [("building_type", .str "Commercial"), ("square_footage", .num 300),
           ("number_of_occupants", .num 2), ("appliances_used", .num 7)])
    ∧ [("building_type", JsVal.str "Commercial"),
       ("square_footage", JsVal.num 300),
       ("number_of_occupants", JsVal.num 2),
       ("appliances_used", JsVal.num 7)].map Prod.fst
        = ["building_type", "square_footage", "number_of_occupants",
           "appliances_used"] := by
  refine ⟨by decide, ?_⟩
  exact (C6_forwards_exactly_four_fields
    { building_type := .str "Commercial", square_footage := .num 300,
      number_of_occupants := .num 2, appliances_used := .num 7,
      extra := [("debug", .bool true), ("note", .str "hi")] }
    [("building_type", .str "Commercial"), ("square_footage", .num 300),
     ("number_of_occupants", .num 2), ("appliances_used", .num 7)]
    (by decide)).2

/-- C4: on the success path, every field of the normalized response is
populated — `energy_consumption` defaults to 0, `unit` to "kWh", each
factor field to 0, and a response missing `factors` entirely yields a
factors object fully populated with zeros. -/
theorem C4_normalization_defaults (d : BackendPredictionResponse) :
    (d.energy_consumption = none → (normalizeResponse d).energy_consumption = 0)
    ∧ (d.unit = none → (normalizeResponse d).unit = "kWh")
    ∧ (d.factors = none →
        (normalizeResponse d).factors = ⟨0, 0, 0, 0⟩)
    ∧ (∀ f, d.factors = some f →
        (f.building_type = none → (normalizeResponse d).factors.building_type = 0)
        ∧ (f.square_footage = none → (normalizeResponse d).factors.square_footage = 0)
        ∧ (f.number_of_occupants = none →
            (normalizeResponse d).factors.number_of_occupants = 0)
        ∧ (f.appliances_used = none →
            (normalizeResponse d).factors.appliances_used = 0)) := by
  refine ⟨fun h => ?_, fun h => ?_, fun h => ?_, fun f hf => ?_⟩
  · simp [normalizeResponse, h]
  · simp [normalizeResponse, h]
  · simp [normalizeResponse, h]
  · exact ⟨fun h => by simp [normalizeResponse, hf, h],
      fun h => by simp [normalizeResponse, hf, h],
      fun h => by simp [normalizeResponse, hf, h],
      fun h => by simp [normalizeResponse, hf, h]⟩

theorem C4_normalization_defaults_witness :
    normalizeResponse ⟨none, none, none⟩
      = { energy_consumption := 0, unit := "kWh", factors := ⟨0, 0, 0, 0⟩ } := by
  have h := C4_normalization_defaults ⟨none, none, none⟩
  have h1 := h.1 rfl
  have h2 := h.2.1 rfl
  have h3 := h.2.2.1 rfl
  cases hr : normalizeResponse ⟨none, none, none⟩
  rw [hr] at h1 h2 h3
  simp_all

/-- C8 counterexample: the claim says a malformed (non-integer) `page`
parameter is replaced by the default "1", but the handler only defaults
absent or empty parameters — the malformed string "abc" is forwarded
unchanged. -/
theorem C8_counterexample :
    isIntegerString "abc" = false
    ∧ (datasetGETparams (some "abc") none).1 = "abc"
    ∧ (datasetGETparams (some "abc") none).1 ≠ "1" := by
  decide

/-- C8 amended: the forwarded `page` and `limit` default to "1" and "50"
exactly when the corresponding parameter is absent or the empty string;
any non-empty value — well-formed or malformed — is forwarded unchanged. -/
theorem C8_amended_defaults (page limit : Option String) :
    ((page = none ∨ page = some "") → (datasetGETparams page limit).1 = "1")
    ∧ ((limit = none ∨ limit = some "") → (datasetGETparams page limit).2 = "50")
    ∧ (∀ s, s ≠ "" → page = some s → (datasetGETparams page limit).1 = s)
    ∧ (∀ s, s ≠ "" → limit = some s → (datasetGETparams page limit).2 = s) := by
  refine ⟨fun h => ?_, fun h => ?_, fun s hs hp => ?_, fun s hs hl => ?_⟩
  · rcases h with h | h <;> simp [datasetGETparams, jsOrString, h]
  · rcases h with h | h <;> simp [datasetGETparams, jsOrString, h]
  · simp [datasetGETparams, jsOrString, hp, hs]
  · simp [datasetGETparams, jsOrString, hl, hs]

theorem C8_amended_defaults_witness :
    (datasetGETparams none (some "") = ("1", "50"))
    ∧ (datasetGETparams (some "abc") (some "7") = ("abc", "7")) := by
  have h1 := C8_amended_defaults none (some "")
  have h2 := C8_amended_defaults (some "abc") (some "7")
  refine ⟨Prod.ext ?_ ?_, Prod.ext ?_ ?_⟩
  · exact h1.1 (Or.inl rfl)
  · exact h1.2.1 (Or.inr rfl)
  · exact h2.2.2.1 "abc" (by decide) rfl
  · exact h2.2.2.2 "7" (by decide) rfl

/-- A row of the training dataset as the dataset view types it. -/
structure DataRow where
  building_type : String
  square_footage : ℚ
  number_of_occupants : ℚ
  appliances_used : ℚ
  energy_consumption : ℚ
deriving DecidableEq, Repr

/-- The four selectable metrics of the dataset view. -/
inductive Metric where
  | energy_consumption
  | square_footage
  | number_of_occupants
  | appliances_used
deriving DecidableEq, Repr

/-- `row[selectedMetric]` — the value of the selected metric on a row. -/
def metricValue (m : Metric) (r : DataRow) : ℚ :=
  match m with
  | .energy_consumption => r.energy_consumption
  | .square_footage => r.square_footage
  | .number_of_occupants => r.number_of_occupants
  | .appliances_used => r.appliances_used

/-- `getFilteredData`: restrict the loaded page to rows whose
`building_type` equals the filter, with "all" meaning no filtering. -/
def getFilteredData (filterType : String) (dataset : List DataRow) : List DataRow :=
  if filterType = "all" then dataset
  else dataset.filter (fun row => row.building_type == filterType)

/-- `padding.top` of the chart. -/
def chartPadTop : ℚ := 40

/-- `padding.right` of the chart. -/
def chartPadRight : ℚ := 60

/-- `padding.bottom` of the chart. -/
def chartPadBottom : ℚ := 60

/-- `padding.left` of the chart. -/
def chartPadLeft : ℚ := 80

/-- `chartWidth = width - padding.left - padding.right` with `width = 1000`. -/
def chartWidth : ℚ := 1000 - chartPadLeft - chartPadRight

/-- `chartHeight = height - padding.top - padding.bottom` with `height = 500`. -/
def chartHeight : ℚ := 500 - chartPadTop - chartPadBottom

/-- `Math.max(...values)` on a non-empty list (0 on the empty list, which the
component never reaches: it bails out before computing it). -/
def listMax : List ℚ → ℚ
  | [] => 0
  | x :: xs => xs.foldl max x

/-- `Math.min(...values)` on a non-empty list (0 on the empty list). -/
def listMin : List ℚ → ℚ
  | [] => 0
  | x :: xs => xs.foldl min x

/-- JS `q || d` on a number: `0` is falsy. -/
def jsOrQ (q d : ℚ) : ℚ := if q = 0 then d else q

/-- One element of the `points` array the chart builds. -/
structure ChartPoint where
  x : ℚ
  y : ℚ
  value : ℚ
  buildingType : String
deriving DecidableEq, Repr

/-- The `points` computation of `LineGraph`: `maxValue`/`minValue` over the
selected metric, `range = maxValue - minValue || 1`, and for index `i`
`x = padding.left + (i / (filteredData.length - 1 || 1)) * chartWidth`,
`y = padding.top + chartHeight - ((value - minValue) / range) * chartHeight`. -/
def lineGraphPoints (m : Metric) (filteredData : List DataRow) : List ChartPoint :=
  let values := filteredData.map (metricValue m)
  let maxValue := listMax values
  let minValue := listMin values
  let range := jsOrQ (maxValue - minValue) 1
  filteredData.enum.map fun p =>
    { x := chartPadLeft
        + ((p.1 : ℚ) / jsOrQ ((filteredData.length : ℚ) - 1) 1) * chartWidth
      y := chartPadTop + chartHeight
        - ((metricValue m p.2 - minValue) / range) * chartHeight
      value := metricValue m p.2
      buildingType := p.2.building_type }

/-- The `LineGraph` component: returns `none` (JSX `null`) when the filtered
row set is empty, otherwise the chart built from its points. -/
def LineGraph (m : Metric) (filterType : String) (dataset : List DataRow) :
    Option (List ChartPoint) :=
  let filteredData := getFilteredData filterType dataset
  if filteredData.length = 0 then none
  else some (lineGraphPoints m filteredData)

/-- What the dataset page renders in its graph slot. -/
inductive DatasetRender where
  | loadingMsg
  | noDataMsg
  | chart (points : List ChartPoint)
  | nothing
deriving DecidableEq, Repr

/-- The graph-slot rendering chain of `DatasetPage`: the loading card while
loading, the "No data available" card when the fetched dataset is empty,
otherwise `LineGraph` (which may itself render nothing). -/
def renderDataset (loading : Bool) (dataset : List DataRow) (filterType : String)
    (m : Metric) : DatasetRender :=
  if loading then .loadingMsg
  else if dataset.length = 0 then .noDataMsg
  else
    match LineGraph m filterType dataset with
    | none => .nothing
    | some ps => .chart ps

/-- The pagination-relevant state of `DatasetPage`. -/
structure DatasetViewState where
  page : Nat
  limit : Nat
  totalPages : Nat
deriving DecidableEq, Repr

/-- The limit select's onChange handler: `setLimit(Number(e.target.value));
setPage(1);`. -/
def changeLimit (n : Nat) (s : DatasetViewState) : DatasetViewState :=
  { s with limit := n, page := 1 }

/-- The query parameters of the fetch the `[page, limit]` effect issues:
`/api/dataset?page=${page}&limit=${limit}`. -/
def fetchRequestParams (s : DatasetViewState) : Nat × Nat := (s.page, s.limit)

/-- C5: changing the limit also sets `page` to 1, so the fetch fired by the
`[page, limit]` effect after a limit change requests page 1 with the new
limit, never the previously selected page. -/
theorem C5_limit_change_resets_page (s : DatasetViewState) (n : Nat) :
    (changeLimit n s).page = 1 ∧ fetchRequestParams (changeLimit n s) = (1, n) :=
  ⟨rfl, rfl⟩

/-- A sample dataset row used by concrete witnesses. -/
def sampleRow : DataRow :=
  { building_type := "Residential", square_footage := 100,
    number_of_occupants := 4, appliances_used := 10, energy_consumption := 250 }

/-- C10: with loading finished, a non-empty fetched page whose filter
matches no rows makes `LineGraph` return null — nothing is rendered; the
"No data available" card appears exactly when the fetched dataset itself is
empty. -/
theorem C10_filter_empties_renders_nothing :
    (∀ (dataset : List DataRow) (filterType : String) (m : Metric),
        dataset ≠ [] → getFilteredData filterType dataset = [] →
        renderDataset false dataset filterType m = .nothing)
    ∧ (∀ (filterType : String) (m : Metric),
        renderDataset false [] filterType m = .noDataMsg)
    ∧ (∀ (dataset : List DataRow) (filterType : String) (m : Metric),
        renderDataset false dataset filterType m = .noDataMsg → dataset = []) := by
  refine ⟨fun ds ft m hne hemp => ?_, fun ft m => ?_, fun ds ft m h => ?_⟩
  · simp [renderDataset, List.length_eq_zero, hne, LineGraph, hemp]
  · simp [renderDataset]
  · by_contra hne
    simp only [renderDataset, if_neg (Bool.false_ne_true), List.length_eq_zero,
      if_neg hne] at h
    rcases hLG : LineGraph m ft ds with _ | ps <;> simp [hLG] at h

theorem C10_filter_empties_renders_nothing_witness :
    renderDataset false [sampleRow] "Commercial" Metric.energy_consumption
      = DatasetRender.nothing :=
  C10_filter_empties_renders_nothing.1 [sampleRow] "Commercial"
    Metric.energy_consumption (by decide) (by decide)

/-- A row with the constant metric value 10 used for the C3 counterexample. -/
def constRow : DataRow :=
  { building_type := "Residential", square_footage := 20,
    number_of_occupants := 3, appliances_used := 5, energy_consumption := 10 }

/-- C3 counterexample: for the constant series [10, 10] the range fallback 1
is applied and `(value - min)/1 = 0`, but the resulting y coordinate is
`top + chartHeight = 440`, the bottom edge of the chart area, not the
vertical chart center `top + chartHeight/2 = 240`. -/
theorem C3_counterexample :
    (lineGraphPoints Metric.energy_consumption [constRow, constRow]).map ChartPoint.y
      = [440, 440]
    ∧ chartPadTop + chartHeight / 2 = 240
    ∧ (440 : ℚ) ≠ 240 := by
  refine ⟨?_, ?_, by norm_num⟩
  · simp only [lineGraphPoints, List.enum, List.enumFrom, List.map, constRow,
      metricValue, listMax, listMin, List.foldl, jsOrQ]
    norm_num [chartPadTop, chartPadLeft, chartHeight, chartWidth, chartPadRight,
      chartPadBottom]
  · norm_num [chartPadTop, chartHeight, chartPadBottom]

lemma le_foldl_max (xs : List ℚ) (a : ℚ) : a ≤ xs.foldl max a := by
  induction xs generalizing a with
  | nil => exact le_refl a
  | cons x xs ih => exact le_trans (le_max_left a x) (ih (max a x))

lemma mem_le_foldl_max (xs : List ℚ) (a v : ℚ) (hv : v ∈ xs) : v ≤ xs.foldl max a := by
  induction xs generalizing a with
  | nil => cases hv
  | cons x xs ih =>
    rcases List.mem_cons.mp hv with rfl | h
    · exact le_trans (le_max_right a v) (le_foldl_max xs (max a v))
    · exact ih (max a x) h

lemma foldl_min_le (xs : List ℚ) (a : ℚ) : xs.foldl min a ≤ a := by
  induction xs generalizing a with
  | nil => exact le_refl a
  | cons x xs ih => exact le_trans (ih (min a x)) (min_le_left a x)

lemma foldl_min_le_mem (xs : List ℚ) (a v : ℚ) (hv : v ∈ xs) : xs.foldl min a ≤ v := by
  induction xs generalizing a with
  | nil => cases hv
  | cons x xs ih =>
    rcases List.mem_cons.mp hv with rfl | h
    · exact le_trans (foldl_min_le xs (min a v)) (min_le_right a v)
    · exact ih (min a x) h

lemma le_listMax (v : ℚ) (l : List ℚ) (hv : v ∈ l) : v ≤ listMax l := by
  cases l with
  | nil => cases hv
  | cons x xs =>
    rcases List.mem_cons.mp hv with rfl | h
    · exact le_foldl_max xs v
    · exact mem_le_foldl_max xs x v h

lemma listMin_le (v : ℚ) (l : List ℚ) (hv : v ∈ l) : listMin l ≤ v := by
  cases l with
  | nil => cases hv
  | cons x xs =>
    rcases List.mem_cons.mp hv with rfl | h
    · exact foldl_min_le xs v
    · exact foldl_min_le_mem xs x v h

/-- C3 amended: for a non-empty filtered row set whose selected metric is
constant, the range fallback of 1 is applied and every data point's y
coordinate maps to the bottom edge of the chart area,
`top + chartHeight` — not the vertical chart center. -/
theorem C3_amended_constant_series_bottom (m : Metric) (fd : List DataRow)
    (hne : fd ≠ [])
    (hconst : listMax (fd.map (metricValue m)) = listMin (fd.map (metricValue m))) :
    jsOrQ (listMax (fd.map (metricValue m)) - listMin (fd.map (metricValue m))) 1 = 1
    ∧ ∀ p ∈ lineGraphPoints m fd, p.y = chartPadTop + chartHeight := by
  have hrange :
      jsOrQ (listMax (fd.map (metricValue m)) - listMin (fd.map (metricValue m))) 1
        = 1 := by
    rw [hconst]
    simp [jsOrQ]
  refine ⟨hrange, ?_⟩
  intro p hp
  simp only [lineGraphPoints] at hp
  rw [List.mem_map] at hp
  obtain ⟨q, hq, rfl⟩ := hp
  have hrow : q.2 ∈ fd := by
    rw [List.enum_eq_zip_range] at hq
    exact (List.of_mem_zip hq).2
  have hv : metricValue m q.2 ∈ fd.map (metricValue m) :=
    List.mem_map_of_mem (metricValue m) hrow
  have heq : metricValue m q.2 = listMin (fd.map (metricValue m)) :=
    le_antisymm (hconst ▸ le_listMax _ _ hv) (listMin_le _ _ hv)
  simp only [hrange, heq, sub_self, zero_div, zero_mul, sub_zero]

theorem C3_amended_constant_series_bottom_witness :
    jsOrQ (listMax ([constRow, constRow].map (metricValue Metric.energy_consumption))
        - listMin ([constRow, constRow].map (metricValue Metric.energy_consumption)))
      1 = 1 :=
  (C3_amended_constant_series_bottom Metric.energy_consumption [constRow, constRow]
    (by decide) (by decide)).1

lemma denom_eq (n : Nat) (hn : n ≠ 0) :
    jsOrQ ((n : ℚ) - 1) 1 = ((max (n - 1) 1 : Nat) : ℚ) := by
  rcases n with _ | k
  · exact absurd rfl hn
  rcases k with _ | k
  · norm_num [jsOrQ]
  · have h1 : max (k + 2 - 1) 1 = k + 1 := by omega
    have h3 : ((k + 2 : Nat) : ℚ) - 1 ≠ 0 := by
      intro heq
      have hk : (0 : ℚ) ≤ (k : ℚ) := Nat.cast_nonneg k
      push_cast at heq
      linarith
    rw [jsOrQ, if_neg h3, h1]
    push_cast
    ring

/-- The spec's x formula: `x = left + (i / max(n-1,1)) * chartWidth`. -/
def specX (n i : Nat) : ℚ :=
  chartPadLeft + ((i : ℚ) / ((max (n - 1) 1 : Nat) : ℚ)) * chartWidth

/-- The spec's y formula:
`y = top + chartHeight - ((value - min) / range) * chartHeight`, with
`range = max - min` falling back to 1 when zero. -/
def specY (minV maxV v : ℚ) : ℚ :=
  let range := if maxV - minV = 0 then 1 else maxV - minV
  chartPadTop + chartHeight - ((v - minV) / range) * chartHeight

/-- C7: in the chart of a non-empty filtered row set of `n` rows, the point
of row index `i` has `x = left + (i / max(n-1,1)) * chartWidth` and
`y = top + chartHeight - ((value - min) / range) * chartHeight`, with
`chartWidth = 1000 - 80 - 60` and `chartHeight = 500 - 40 - 60`. -/
theorem C7_chart_geometry (m : Metric) (fd : List DataRow) (hne : fd ≠ []) :
    chartWidth = 1000 - 80 - 60
    ∧ chartHeight = 500 - 40 - 60
    ∧ (lineGraphPoints m fd).length = fd.length
    ∧ ∀ (i : Nat) (hi : i < fd.length) (hp : i < (lineGraphPoints m fd).length),
        ((lineGraphPoints m fd).get ⟨i, hp⟩).x = specX fd.length i
        ∧ ((lineGraphPoints m fd).get ⟨i, hp⟩).y
            = specY (listMin (fd.map (metricValue m)))
                (listMax (fd.map (metricValue m)))
                (metricValue m (fd.get ⟨i, hi⟩)) := by
  have hn : fd.length ≠ 0 := fun h => hne (List.length_eq_zero.mp h)
  refine ⟨by norm_num [chartWidth, chartPadLeft, chartPadRight],
    by norm_num [chartHeight, chartPadTop, chartPadBottom],
    by simp [lineGraphPoints], ?_⟩
  intro i hi hp
  have hget : (lineGraphPoints m fd).get ⟨i, hp⟩
      = { x := chartPadLeft
            + ((i : ℚ) / jsOrQ ((fd.length : ℚ) - 1) 1) * chartWidth
          y := chartPadTop + chartHeight
            - ((metricValue m (fd.get ⟨i, hi⟩)
                  - listMin (fd.map (metricValue m)))
                / jsOrQ (listMax (fd.map (metricValue m))
                    - listMin (fd.map (metricValue m))) 1) * chartHeight
          value := metricValue m (fd.get ⟨i, hi⟩)
          buildingType := (fd.get ⟨i, hi⟩).building_type } := by
    simp [lineGraphPoints, List.getElem_map, List.getElem_enum]
  rw [hget]
  constructor
  · simp only [specX]
    rw [denom_eq fd.length hn]
  · simp only [specY, jsOrQ]

theorem C7_chart_geometry_witness :
    ((lineGraphPoints Metric.energy_consumption [sampleRow, constRow]).get
        ⟨1, by simp [lineGraphPoints]⟩).x
      = specX 2 1 := by
  have h := (C7_chart_geometry Metric.energy_consumption [sampleRow, constRow]
    (by decide)).2.2.2 1 (by decide) (by simp [lineGraphPoints])
  exact h.1

/-- The prediction result as the predictor view types it (`unit` optional). -/
structure PredictionResult where
  energy_consumption : ℚ
  unit : Option String
deriving DecidableEq, Repr

/-- The integer number of hundredths `(q).toFixed(2)` displays for a
non-negative `q`: round half up, `⌊q·100 + 1/2⌋`. -/
def toFixed2Hundredths (q : ℚ) : ℤ := ⌊q * 100 + 1 / 2⌋

/-- JS `q.toFixed(2)` for non-negative `q`: the rounded hundredths printed
with exactly two decimal digits. -/
def jsToFixed2 (q : ℚ) : String :=
  let n := toFixed2Hundredths q
  toString (n / 100) ++ "." ++ (if n % 100 < 10 then "0" else "") ++ toString (n % 100)

/-- The rational value the string `(q).toFixed(2)` represents. -/
def jsToFixed2Val (q : ℚ) : ℚ := ((toFixed2Hundredths q : ℤ) : ℚ) / 100

/-- The monthly figure the predictor view renders (in both result cards):
`(result.energy_consumption/4).toFixed(2)` followed by
`result.unit || 'kWh'`. -/
def monthlyDisplay (r : PredictionResult) : String :=
  jsToFixed2 (r.energy_consumption / 4) ++ " " ++ jsOrString r.unit "kWh"

/-- The spec's wording for the displayed monthly value: `energy_consumption`
divided by 4, rounded to two decimal places (nearest hundredth). -/
def specMonthlyValue (ec : ℚ) : ℚ := ((round (ec / 4 * 100) : ℤ) : ℚ) / 100

/-- C1: the value the predictor view displays as monthly consumption is
`energy_consumption / 4` rounded to two decimal places, and for a backend
response with `energy_consumption` 400 and unit "kWh" the view displays
"100.00 kWh". -/
theorem C1_monthly_display :
    (∀ ec : ℚ, jsToFixed2Val (ec / 4) = specMonthlyValue ec)
    ∧ monthlyDisplay { energy_consumption := 400, unit := some "kWh" }
        = "100.00 kWh" := by
  constructor
  · intro ec
    simp only [jsToFixed2Val, specMonthlyValue, toFixed2Hundredths, round_eq]
  · have hfloor : toFixed2Hundredths ((400 : ℚ) / 4) = 10000 := by
      simp only [toFixed2Hundredths]
      rw [show (400 : ℚ) / 4 * 100 + 1 / 2 = 10000 + 1 / 2 by norm_num]
      rw [Int.floor_eq_iff]
      constructor <;> norm_num
    simp only [monthlyDisplay, jsToFixed2, hfloor, jsOrString]
    decide
